import Mathlib

/-! Shallow embedding of the CRUD request pipeline of the
alya-go-fn-boilerplate service family (Gin handlers in `main.go`):
request-body binding and validation, pagination normalization, store
access, fire-and-forget event publishing, and best-effort enrichment,
for the post and transaction resources.

Modelling conventions:
  * Go strings are Lean `String`s; Go byte-wise string comparison is
    `goStrLt` (UTF-8 byte order coincides with code-point order).
  * `strconv.Atoi` is `goAtoi : String → Option Int` (`none` = the
    error case; the handlers discard the error with `_`, so they use
    `(goAtoi s).getD 0`).  The 64-bit range error of Go is not
    modelled: all values reachable in the handlers are tiny.
  * A request body is `Option Json`: `none` stands for a body that is
    not syntactically valid JSON; `some j` for a body that parses to
    the JSON value `j`.  `json.Unmarshal` into the DTO structs is
    modelled field by field (absent field → Go zero value, wrong type
    → decode error, duplicate keys → last wins).  The case-folding
    fallback of Go for key matching is not modelled (exact keys only).
  * JSON numbers and Go float64 fields are modelled as `Rat`; the
    handlers only copy and compare these values, never compute.
  * gorm timestamps (`CreatedAt`, …) are not modelled: the handlers
    never read them.
  * The NATS connection is an oracle: `Publish` outcomes are a
    function `pub : String → String → Bool`, `Request` replies a
    function `reqReply : String → String → NatsReply`.
  * HTTP responses are records of the fields the handlers write
    (`status` code, error `type` tag, payload); free-text `message`
    strings coming from library errors are not modelled.
-/

/-- Byte-wise lexicographic order on character lists, mirroring the Go
`<` operator on strings (Go compares UTF-8 bytes; byte order equals
code-point order, so comparing code points is faithful). -/
def goLtChars : List Char → List Char → Bool
  | [], [] => false
  | [], _ :: _ => true
  | _ :: _, [] => false
  | a :: as, b :: bs =>
    if a.toNat < b.toNat then true
    else if b.toNat < a.toNat then false
    else goLtChars as bs

/-- Go string comparison `a < b`, as used by the pagination bounds
checks `limitQ < "1"` and `limitQ > "100"` (the latter is `goStrLt
"100" limitQ`). -/
def goStrLt (a b : String) : Bool := goLtChars a.data b.data

/-- Accumulator loop of the decimal parser: consumes the remaining
characters, failing on the first non-digit. -/
def parseDigitsAux : List Char → Nat → Option Nat
  | [], acc => some acc
  | c :: cs, acc =>
    if 48 ≤ c.toNat ∧ c.toNat ≤ 57 then
      parseDigitsAux cs (acc * 10 + (c.toNat - 48))
    else none

/-- Parse a non-empty all-digit character list to a natural number;
`none` on the empty list or any non-digit character. -/
def parseDigits : List Char → Option Nat
  | [] => none
  | c :: cs => parseDigitsAux (c :: cs) 0

/-- Model of Go `strconv.Atoi`: optional sign followed by at least one
decimal digit; `none` models the `(0, err)` error return. -/
def goAtoi (s : String) : Option Int :=
  match s.data with
  | [] => none
  | c :: rest =>
    if c.toNat = 45 then (parseDigits rest).map (fun n => -(n : Int))
    else if c.toNat = 43 then (parseDigits rest).map (fun n => (n : Int))
    else (parseDigits (c :: rest)).map (fun n => (n : Int))

/-- JSON values, as produced by parsing a syntactically valid request
body or a NATS reply payload. -/
inductive Json where
  | null
  | bool (b : Bool)
  | num (q : Rat)
  | str (s : String)
  | arr (xs : List Json)
  | obj (fields : List (String × Json))

/-- Look up a key in a JSON object; Go `encoding/json` lets the last
occurrence of a duplicated key win. -/
def lookupField (fields : List (String × Json)) (key : String) : Option Json :=
  ((fields.filter (fun kv => kv.fst == key)).getLast?).map (fun kv => kv.snd)

/-- Unmarshal of one JSON object field into a Go `string` struct
field: absent or `null` leaves the zero value `""`, any non-string
value is a decode error. -/
def jsonFieldToString : Option Json → Except Unit String
  | none => Except.ok ""
  | some Json.null => Except.ok ""
  | some (Json.str s) => Except.ok s
  | some _ => Except.error ()

/-- Unmarshal of one JSON object field into a Go `int` struct field:
absent or `null` leaves the zero value `0`; a number with a fractional
part, or any non-number, is a decode error. -/
def jsonFieldToInt : Option Json → Except Unit Int
  | none => Except.ok 0
  | some Json.null => Except.ok 0
  | some (Json.num q) => if q.den = 1 then Except.ok q.num else Except.error ()
  | some _ => Except.error ()

/-- Unmarshal of one JSON object field into a Go `float64` struct
field (modelled as `Rat`): absent or `null` leaves the zero value,
any non-number is a decode error. -/
def jsonFieldToRat : Option Json → Except Unit Rat
  | none => Except.ok 0
  | some Json.null => Except.ok 0
  | some (Json.num q) => Except.ok q
  | some _ => Except.error ()

/-- CreatePostDto of the post service: `Body string` with validator
tags `required,min=1,max=255`. -/
structure CreatePostDto where
  Body : String
deriving DecidableEq

/-- Unmarshal a JSON value into `CreatePostDto` (Go `json.Unmarshal`
semantics: `null` leaves the zero struct; only objects decode; a field
of the wrong type is an error). -/
def decodeCreatePostDto : Json → Except Unit CreatePostDto
  | Json.null => Except.ok { Body := "" }
  | Json.obj fields =>
    match jsonFieldToString (lookupField fields "body") with
    | Except.ok s => Except.ok { Body := s }
    | Except.error e => Except.error e
  | _ => Except.error ()

/-- Bind step of `ctx.BindJSON(&createPostDto)`: a syntactically
malformed body (`none`) or a body of the wrong shape is an error. -/
def bindCreatePostDto : Option Json → Except Unit CreatePostDto
  | none => Except.error ()
  | some j => decodeCreatePostDto j

/-- go-playground validation of `CreatePostDto`: `required` (non-zero
string), `min=1` and `max=255` on the rune count of `Body`. -/
def validateCreatePostDto (d : CreatePostDto) : Bool :=
  decide (d.Body ≠ "") && decide (1 ≤ d.Body.length) && decide (d.Body.length ≤ 255)

/-- CreatePostDtoValidator: binds and validates the body, writing the
400 response itself on failure.  The error value is the `type` tag of
the 400 response it writes (`create-post/request-body` for a bind
failure, `create-post/validation` for a constraint failure). -/
def CreatePostDtoValidator (body : Option Json) : Except String CreatePostDto :=
  match bindCreatePostDto body with
  | Except.error _ => Except.error "create-post/request-body"
  | Except.ok d =>
    if validateCreatePostDto d then Except.ok d else Except.error "create-post/validation"

/-- CreateTransactionDto of the transaction service, with the
validator tags of the source (`required,min=1` on the ids, `min=1,
max=10` on status, rune-count bounds on the strings, coordinate
ranges on the float fields). -/
structure CreateTransactionDto where
  OwnerID : Int
  PetID : Int
  Status : Int
  Message : String
  Latitude : Rat
  Longitude : Rat
  Upload : String
deriving DecidableEq

/-- Unmarshal a JSON value into `CreateTransactionDto`. -/
def decodeCreateTransactionDto : Json → Except Unit CreateTransactionDto
  | Json.null =>
    Except.ok { OwnerID := 0, PetID := 0, Status := 0, Message := "",
                Latitude := 0, Longitude := 0, Upload := "" }
  | Json.obj fields => do
    let ownerId ← jsonFieldToInt (lookupField fields "owner_id")
    let petId ← jsonFieldToInt (lookupField fields "pet_id")
    let status ← jsonFieldToInt (lookupField fields "status")
    let message ← jsonFieldToString (lookupField fields "message")
    let latitude ← jsonFieldToRat (lookupField fields "latitude")
    let longitude ← jsonFieldToRat (lookupField fields "longitude")
    let upload ← jsonFieldToString (lookupField fields "upload")
    Except.ok { OwnerID := ownerId, PetID := petId, Status := status,
                Message := message, Latitude := latitude,
                Longitude := longitude, Upload := upload }
  | _ => Except.error ()

/-- Bind step of `ctx.BindJSON(&createTxDto)`. -/
def bindCreateTransactionDto : Option Json → Except Unit CreateTransactionDto
  | none => Except.error ()
  | some j => decodeCreateTransactionDto j

/-- go-playground validation of `CreateTransactionDto`.  Note that
`required` on an `int` or `float64` field fails on the zero value. -/
def validateCreateTransactionDto (d : CreateTransactionDto) : Bool :=
  decide (d.OwnerID ≠ 0) && decide (1 ≤ d.OwnerID) &&
  decide (d.PetID ≠ 0) && decide (1 ≤ d.PetID) &&
  decide (d.Status ≠ 0) && decide (1 ≤ d.Status) && decide (d.Status ≤ 10) &&
  decide (d.Message ≠ "") && decide (1 ≤ d.Message.length) && decide (d.Message.length ≤ 255) &&
  decide (d.Latitude ≠ 0) && decide (-90 ≤ d.Latitude) && decide (d.Latitude ≤ 90) &&
  decide (d.Longitude ≠ 0) && decide (-180 ≤ d.Longitude) && decide (d.Longitude ≤ 180) &&
  decide (d.Upload ≠ "") && decide (1 ≤ d.Upload.length) && decide (d.Upload.length ≤ 255)

/-- CreateTransactionDtoValidator: as `CreatePostDtoValidator`, with
the `create-tx/...` type tags. -/
def CreateTransactionDtoValidator (body : Option Json) : Except String CreateTransactionDto :=
  match bindCreateTransactionDto body with
  | Except.error _ => Except.error "create-tx/request-body"
  | Except.ok d =>
    if validateCreateTransactionDto d then Except.ok d else Except.error "create-tx/validation"

/-- Post row (`gorm.Model` ID plus the body column; timestamps are
never read by the handlers and are not modelled). -/
structure Post where
  ID : Nat
  Body : String
deriving DecidableEq

/-- Transaction row of the transaction service. -/
structure Transaction where
  ID : Nat
  OwnerID : Int
  PetID : Int
  Status : Int
  Message : String
  Latitude : Rat
  Longitude : Rat
  Upload : String
deriving DecidableEq

/-- Mapping of a validated DTO into a fresh `Transaction` value, as in
`tx := Transaction{OwnerID: createTxDto.OwnerID, ...}` (ID still the
zero value before the store write). -/
def txFromDto (d : CreateTransactionDto) : Transaction :=
  { ID := 0, OwnerID := d.OwnerID, PetID := d.PetID, Status := d.Status,
    Message := d.Message, Latitude := d.Latitude, Longitude := d.Longitude,
    Upload := d.Upload }

/-- Zero value of `Transaction`, the state `var tx Transaction` is in
when a lookup finds no row. -/
def zeroTransaction : Transaction :=
  { ID := 0, OwnerID := 0, PetID := 0, Status := 0, Message := "",
    Latitude := 0, Longitude := 0, Upload := "" }

/-- Pagination guard shared by the list handlers: take the raw query
value (`none` = parameter absent, so `ctx.DefaultQuery` supplies the
default), then replace it by the default when it is empty or falls
outside `"1" ≤ q ≤ "100"` in Go STRING comparison. -/
def normParam (raw : Option String) (dflt : String) : String :=
  let q := raw.getD dflt
  if q == "" || goStrLt q "1" || goStrLt "100" q then dflt else q

/-- Normalization of the `limit` query parameter (default `"10"`). -/
def normLimitQ (raw : Option String) : String := normParam raw "10"

/-- Normalization of the `page` query parameter (default `"1"`). -/
def normPageQ (raw : Option String) : String := normParam raw "1"

/-- Pagination of `GetPostsHandler`: string-normalize, Atoi with the
error discarded, then `offset := (page - 1) * limit` with NO re-clamp
of `page`. -/
def getPostsPagination (limitRaw pageRaw : Option String) : Int × Int :=
  let limit := (goAtoi (normLimitQ limitRaw)).getD 0
  let page := (goAtoi (normPageQ pageRaw)).getD 0
  (limit, (page - 1) * limit)

/-- Pagination of `GetTransactionsHandler`: as the posts one, but with
the extra `if page < 1 { page = 1 }` re-clamp before computing the
offset. -/
def getTxPagination (limitRaw pageRaw : Option String) : Int × Int :=
  let limit := (goAtoi (normLimitQ limitRaw)).getD 0
  let page0 := (goAtoi (normPageQ pageRaw)).getD 0
  let page := if page0 < 1 then 1 else page0
  (limit, (page - 1) * limit)

/-- Modelled from the spec: the Store Adapter query
`db.Limit(limit).Offset(offset).Find(&rows)` (GORM is an external
collaborator); per the adapter contract it returns up to `limit` rows
in stable insertion order after skipping `offset` leading rows; a
non-positive offset skips nothing and a negative limit disables the
limit, matching GORM/SQL behaviour for the sentinel values. -/
def dbFind {α : Type} (rows : List α) (limit offsetArg : Int) : List α :=
  let afterOffset := if offsetArg ≤ 0 then rows else rows.drop offsetArg.toNat
  if limit < 0 then afterOffset else afterOffset.take limit.toNat

/-- Modelled from the spec: the Store Adapter lookup `db.First(&tx,
txId)` (GORM, external); returns the first row in primary-key order
whose ID matches, and leaves the zero-valued `Transaction` (ID 0) when
no row matches. -/
def dbFirst (rows : List Transaction) (txId : Int) : Transaction :=
  match rows.find? (fun r => ((r.ID : Int)) == txId) with
  | some r => r
  | none => zeroTransaction

/-- Modelled from the spec: the state of the transaction store, with
the next identifier the ORM will assign (identifiers are opaque and
monotonically assigned, so every stored row has `ID < nextId`). -/
structure TxStore where
  rows : List Transaction
  nextId : Nat

/-- Modelled from the spec: the Store Adapter write `db.Create(&tx)`
(GORM, external); persists the row, assigning it the next monotone
identifier, and returns the saved row as `db.Create` leaves it in the
passed struct. -/
def txStoreCreate (s : TxStore) (t : Transaction) : TxStore × Transaction :=
  let saved := { t with ID := s.nextId }
  ({ rows := s.rows ++ [saved], nextId := s.nextId + 1 }, saved)

/-- Outcome of one `nc.Request` call: `err` when the call itself
errors (e.g. the 1-second timeout), `ok none` when a reply arrives
whose payload is not valid JSON, `ok (some j)` when the payload parses
to `j`. -/
inductive NatsReply where
  | err
  | ok (data : Option Json)

/-- Value that ends up in the response field for one enrichment call:
`nil` (`none`) when the call errored, when the payload fails JSON
decoding, or when it decodes to JSON `null`; the decoded key-value map
when the payload is a JSON object. -/
def decodeReply : NatsReply → Option (List (String × Json))
  | NatsReply.err => none
  | NatsReply.ok none => none
  | NatsReply.ok (some j) =>
    match j with
    | Json.obj fields => some fields
    | _ => none

/-- Response and observable side effects of `CreatePostHandler`.
`pubResults` records the discarded return values of `nc.Publish`. -/
structure CreatePostResult where
  status : Nat
  typeTag : Option String
  post : Option Post
  dbCreateCalled : Bool
  events : List (String × String)
  pubResults : List Bool
deriving DecidableEq

/-- CreatePostHandler: validate (the validator writes the 400 itself
and the handler returns at once on error), `db.Create(&post)` (the
externally assigned identifier is the parameter `assignedId`; 0 models
a failed write), treat a zero ID as 422, publish `post.created`
fire-and-forget, respond 200 with the post. -/
def CreatePostHandler (body : Option Json) (assignedId : Nat)
    (pub : String → String → Bool) : CreatePostResult :=
  match CreatePostDtoValidator body with
  | Except.error tag =>
    { status := 400, typeTag := some tag, post := none,
      dbCreateCalled := false, events := [], pubResults := [] }
  | Except.ok dto =>
    let post : Post := { ID := assignedId, Body := dto.Body }
    if post.ID = 0 then
      { status := 422, typeTag := some "create-post/save", post := none,
        dbCreateCalled := true, events := [], pubResults := [] }
    else
      let payload := "Post Created Body: " ++ post.Body
      { status := 200, typeTag := none, post := some post,
        dbCreateCalled := true, events := [("post.created", payload)],
        pubResults := [pub "post.created" payload] }

/-- Response and observable side effects of `CreateTransactionHandler`. -/
structure CreateTxResult where
  status : Nat
  typeTag : Option String
  tx : Option Transaction
  dbCreateCalled : Bool
  events : List (String × String)
  pubResults : List Bool
deriving DecidableEq

/-- CreateTransactionHandler: the transaction analogue of
`CreatePostHandler`, with the `create-tx/...` tags and the
`tx.created` event. -/
def CreateTransactionHandler (body : Option Json) (assignedId : Nat)
    (pub : String → String → Bool) : CreateTxResult :=
  match CreateTransactionDtoValidator body with
  | Except.error tag =>
    { status := 400, typeTag := some tag, tx := none,
      dbCreateCalled := false, events := [], pubResults := [] }
  | Except.ok dto =>
    let tx := { txFromDto dto with ID := assignedId }
    if tx.ID = 0 then
      { status := 422, typeTag := some "create-tx/save", tx := none,
        dbCreateCalled := true, events := [], pubResults := [] }
    else
      let payload := "Transaction Created Message: " ++ tx.Message
      { status := 200, typeTag := some "create-tx/success", tx := some tx,
        dbCreateCalled := true, events := [("tx.created", payload)],
        pubResults := [pub "tx.created" payload] }

/-- Response and observable side effects of `GetPostsHandler`. -/
structure ListPostsResult where
  status : Nat
  posts : List Post
  events : List (String × String)
  pubResults : List Bool
deriving DecidableEq

/-- GetPostsHandler: normalize pagination, query the store, publish
`post.select` fire-and-forget, respond 200 with the rows. -/
def GetPostsHandler (limitRaw pageRaw : Option String) (rows : List Post)
    (pub : String → String → Bool) (clientIP : String) : ListPostsResult :=
  let lp := getPostsPagination limitRaw pageRaw
  let posts := dbFind rows lp.1 lp.2
  let payload := "Post Got by ip: " ++ clientIP
  { status := 200, posts := posts, events := [("post.select", payload)],
    pubResults := [pub "post.select" payload] }

/-- Response and observable side effects of `GetTransactionsHandler`. -/
structure ListTxResult where
  status : Nat
  txs : List Transaction
  events : List (String × String)
  pubResults : List Bool
deriving DecidableEq

/-- GetTransactionsHandler: as `GetPostsHandler` for transactions,
with the page re-clamp and the `tx.select` event. -/
def GetTransactionsHandler (limitRaw pageRaw : Option String)
    (rows : List Transaction) (pub : String → String → Bool)
    (clientIP : String) : ListTxResult :=
  let lp := getTxPagination limitRaw pageRaw
  let txs := dbFind rows lp.1 lp.2
  let payload := "Tx Got by ip: " ++ clientIP
  { status := 200, txs := txs, events := [("tx.select", payload)],
    pubResults := [pub "tx.select" payload] }

/-- Response and observable side effects of `GetTxByIdHandler`.
`busRequests` records the `nc.Request` calls as (topic, payload,
timeout in seconds); `dbQueried` whether `db.First` ran. -/
structure TxByIdResult where
  status : Nat
  typeTag : Option String
  tx : Option Transaction
  userInfo : Option (List (String × Json))
  petInfo : Option (List (String × Json))
  events : List (String × String)
  busRequests : List (String × String × Nat)
  dbQueried : Bool
  pubResults : List Bool

/-- GetTxByIdHandler: parse `:id` (400 `get-tx/validation` on Atoi
error, before any store access), `db.First` lookup (404
`get-tx/not-found` on zero ID), publish `tx.select`, then the two
independent 1-second request/reply enrichment calls `user.info` and
`pet.info`, whose decoded (or nil) results fill the `user` and `pet`
response fields of the 200 response. -/
def GetTxByIdHandler (idParam : String) (rows : List Transaction)
    (reqReply : String → String → NatsReply) (pub : String → String → Bool)
    (clientIP : String) : TxByIdResult :=
  match goAtoi idParam with
  | none =>
    { status := 400, typeTag := some "get-tx/validation", tx := none,
      userInfo := none, petInfo := none, events := [], busRequests := [],
      dbQueried := false, pubResults := [] }
  | some txId =>
    let tx := dbFirst rows txId
    if tx.ID = 0 then
      { status := 404, typeTag := some "get-tx/not-found", tx := none,
        userInfo := none, petInfo := none, events := [], busRequests := [],
        dbQueried := true, pubResults := [] }
    else
      let selectPayload := "Transaction got by ip: " ++ clientIP
      let pubRes := pub "tx.select" selectPayload
      let userIdStr := toString tx.OwnerID
      let msgUser := reqReply "user.info" userIdStr
      let petIdStr := toString tx.PetID
      let msgPet := reqReply "pet.info" petIdStr
      { status := 200, typeTag := none, tx := some tx,
        userInfo := decodeReply msgUser, petInfo := decodeReply msgPet,
        events := [("tx.select", selectPayload)],
        busRequests := [("user.info", userIdStr, 1), ("pet.info", petIdStr, 1)],
        dbQueried := true, pubResults := [pubRes] }

/-- Concrete malformed-shape body used by the C1 witness: well-formed
JSON whose `body` field violates the `required` constraint. -/
def c1DemoBody : Json := Json.obj [("body", Json.str "")]

/-- Concrete valid body used by the C4 witness. -/
def c4DemoBody : Option Json := some (Json.obj [("body", Json.str "hello")])

/-- Concrete stored row used by the C5 witness. -/
def c5DemoTx : Transaction :=
  { ID := 1, OwnerID := 2, PetID := 3, Status := 1, Message := "m",
    Latitude := 10, Longitude := 20, Upload := "u" }

/-- Concrete bus oracle used by the C5 witness: the owner enrichment
call times out, the pet enrichment call replies with a decodable JSON
object. -/
def c5DemoBus (topic : String) (_payload : String) : NatsReply :=
  if topic == "user.info" then NatsReply.err
  else NatsReply.ok (some (Json.obj [("name", Json.str "rex")]))

/-- Concrete valid creation payload used by the C7 witness. -/
def c7DemoDto : CreateTransactionDto :=
  { OwnerID := 2, PetID := 3, Status := 1, Message := "m",
    Latitude := 10, Longitude := 20, Upload := "u" }

/-- Concrete empty store used by the C7 witness. -/
def c7DemoStore : TxStore := { rows := [], nextId := 1 }

/-! Helper lemmas shared by the claim theorems. -/

/-- Character-level consequence of surviving both pagination bounds
checks: the first character must be the digit 1 (byte 49). -/
lemma kept_head_toNat (c : Char) (rest : List Char)
    (h1 : goLtChars (c :: rest) [Char.ofNat 49] = false)
    (h2 : goLtChars [Char.ofNat 49, Char.ofNat 48, Char.ofNat 48] (c :: rest) = false) :
    c.toNat = 49 := by
  simp only [goLtChars] at h1 h2
  have h49 : (Char.ofNat 49).toNat = 49 := by decide
  rw [h49] at h1 h2
  by_cases hlt : c.toNat < 49
  · rw [if_pos hlt] at h1
    exact absurd h1 (by decide)
  · rw [if_neg hlt] at h1
    by_cases hgt : 49 < c.toNat
    · rw [if_pos hgt] at h2
      exact absurd h2 (by decide)
    · omega

lemma data_one : ("1" : String).data = [Char.ofNat 49] := rfl

lemma data_hundred : ("100" : String).data = [Char.ofNat 49, Char.ofNat 48, Char.ofNat 48] := rfl

/-- Any string kept by the lexicographic bounds check parses (when it
parses at all) to a non-negative integer, because its first character
is the digit 1. -/
lemma goAtoi_kept_nonneg (q : String)
    (h1 : goStrLt q "1" = false) (h2 : goStrLt "100" q = false) :
    0 ≤ (goAtoi q).getD 0 := by
  unfold goStrLt at h1 h2
  rw [data_one] at h1
  rw [data_hundred] at h2
  cases hq : q.data with
  | nil =>
    rw [hq] at h1
    exact absurd h1 (by decide)
  | cons c rest =>
    rw [hq] at h1 h2
    have hc : c.toNat = 49 := kept_head_toNat c rest h1 h2
    simp only [goAtoi, hq]
    rw [if_neg (by omega), if_neg (by omega)]
    cases hpd : parseDigits (c :: rest) with
    | none => simp
    | some n => simp

/-- The pagination guard either falls back to the default or keeps a
string inside the lexicographic bounds. -/
lemma normParam_cases (raw : Option String) (dflt : String) :
    normParam raw dflt = dflt ∨
    (goStrLt (normParam raw dflt) "1" = false ∧
     goStrLt "100" (normParam raw dflt) = false) := by
  simp only [normParam]
  split
  · left; rfl
  · rename_i h
    simp only [Bool.or_eq_true, not_or, Bool.not_eq_true] at h
    right
    exact ⟨h.1.2, h.2⟩

lemma normLimit_atoi_nonneg (raw : Option String) :
    0 ≤ (goAtoi (normLimitQ raw)).getD 0 := by
  unfold normLimitQ
  rcases normParam_cases raw "10" with h | ⟨h1, h2⟩
  · rw [h]; decide
  · exact goAtoi_kept_nonneg _ h1 h2

lemma normPage_atoi_nonneg (raw : Option String) :
    0 ≤ (goAtoi (normPageQ raw)).getD 0 := by
  unfold normPageQ
  rcases normParam_cases raw "1" with h | ⟨h1, h2⟩
  · rw [h]; decide
  · exact goAtoi_kept_nonneg _ h1 h2

/-- One-sided bound of the store query: with a positive limit it never
returns more than limit rows, whatever the offset. -/
lemma dbFind_length_le {α : Type} (rows : List α) (lim off : Int) (h : 1 ≤ lim) :
    ((dbFind rows lim off).length : Int) ≤ lim := by
  unfold dbFind
  rw [if_neg (by omega)]
  have htake := List.length_take_le lim.toNat
    (if off ≤ 0 then rows else rows.drop off.toNat)
  omega

lemma find?_append_none {α : Type} (p : α → Bool) (l1 l2 : List α)
    (h : l1.find? p = none) : (l1 ++ l2).find? p = l2.find? p := by
  induction l1 with
  | nil => simp
  | cons a as ih =>
    by_cases hpa : p a = true
    · rw [List.find?_cons_of_pos _ hpa] at h
      cases h
    · rw [List.find?_cons_of_neg _ hpa] at h
      rw [List.cons_append, List.find?_cons_of_neg _ hpa]
      exact ih h

/-! Claim theorems. -/

/-- C1: for every create request the validator decides the outcome
before any store write: a malformed JSON body yields 400 with type
`create-post/request-body` (resp. `create-tx/request-body`) and
`db.Create` is never called; a body that decodes but violates a field
constraint yields 400 with type `create-post/validation` (resp.
`create-tx/validation`) and `db.Create` is never called; the caller
returns immediately (no event, no payload) on a validator error. -/
theorem c1_validator_decides_before_write (body : Option Json) (assignedId : Nat)
    (pub : String → String → Bool) :
    (body = none →
       (CreatePostHandler body assignedId pub).status = 400 ∧
       (CreatePostHandler body assignedId pub).typeTag = some "create-post/request-body" ∧
       (CreatePostHandler body assignedId pub).dbCreateCalled = false ∧
       (CreatePostHandler body assignedId pub).events = [] ∧
       (CreateTransactionHandler body assignedId pub).status = 400 ∧
       (CreateTransactionHandler body assignedId pub).typeTag = some "create-tx/request-body" ∧
       (CreateTransactionHandler body assignedId pub).dbCreateCalled = false ∧
       (CreateTransactionHandler body assignedId pub).events = []) ∧
    (∀ (j : Json) (d : CreatePostDto),
       body = some j → decodeCreatePostDto j = Except.ok d →
       validateCreatePostDto d = false →
       (CreatePostHandler body assignedId pub).status = 400 ∧
       (CreatePostHandler body assignedId pub).typeTag = some "create-post/validation" ∧
       (CreatePostHandler body assignedId pub).dbCreateCalled = false ∧
       (CreatePostHandler body assignedId pub).events = []) ∧
    (∀ (j : Json) (d : CreateTransactionDto),
       body = some j → decodeCreateTransactionDto j = Except.ok d →
       validateCreateTransactionDto d = false →
       (CreateTransactionHandler body assignedId pub).status = 400 ∧
       (CreateTransactionHandler body assignedId pub).typeTag = some "create-tx/validation" ∧
       (CreateTransactionHandler body assignedId pub).dbCreateCalled = false ∧
       (CreateTransactionHandler body assignedId pub).events = []) := by
  refine ⟨?_, ?_, ?_⟩
  · intro hb
    subst hb
    exact ⟨rfl, rfl, rfl, rfl, rfl, rfl, rfl, rfl⟩
  · intro j d hb hdec hval
    subst hb
    have hV : CreatePostDtoValidator (some j) = Except.error "create-post/validation" := by
      simp [CreatePostDtoValidator, bindCreatePostDto, hdec, hval]
    simp [CreatePostHandler, hV]
  · intro j d hb hdec hval
    subst hb
    have hV : CreateTransactionDtoValidator (some j) = Except.error "create-tx/validation" := by
      simp [CreateTransactionDtoValidator, bindCreateTransactionDto, hdec, hval]
    simp [CreateTransactionHandler, hV]

/-- Witness for C1 at a malformed body (`none`) and at a well-formed
body whose `body` field is empty. -/
theorem c1_witness :
    ((none : Option Json) = none ∧
     (CreatePostHandler none 7 (fun _ _ => true)).status = 400 ∧
     (CreatePostHandler none 7 (fun _ _ => true)).typeTag = some "create-post/request-body" ∧
     (CreatePostHandler none 7 (fun _ _ => true)).dbCreateCalled = false ∧
     (CreateTransactionHandler none 7 (fun _ _ => true)).typeTag =
       some "create-tx/request-body") ∧
    (decodeCreatePostDto c1DemoBody = Except.ok { Body := "" } ∧
     validateCreatePostDto { Body := "" } = false ∧
     (CreatePostHandler (some c1DemoBody) 7 (fun _ _ => true)).status = 400 ∧
     (CreatePostHandler (some c1DemoBody) 7 (fun _ _ => true)).typeTag =
       some "create-post/validation" ∧
     (CreatePostHandler (some c1DemoBody) 7 (fun _ _ => true)).dbCreateCalled = false) ∧
    ((CreateTransactionHandler (some c1DemoBody) 7 (fun _ _ => true)).status = 400 ∧
     (CreateTransactionHandler (some c1DemoBody) 7 (fun _ _ => true)).typeTag =
       some "create-tx/validation") := by
  have h1 := (c1_validator_decides_before_write none 7 (fun _ _ => true)).1 rfl
  have h2 := (c1_validator_decides_before_write (some c1DemoBody) 7
      (fun _ _ => true)).2.1 c1DemoBody { Body := "" } rfl rfl rfl
  have h3 := (c1_validator_decides_before_write (some c1DemoBody) 7
      (fun _ _ => true)).2.2 c1DemoBody
      { OwnerID := 0, PetID := 0, Status := 0, Message := "", Latitude := 0,
        Longitude := 0, Upload := "" } rfl rfl rfl
  exact ⟨⟨rfl, h1.1, h1.2.1, h1.2.2.1, h1.2.2.2.2.2.1⟩,
         ⟨rfl, rfl, h2.1, h2.2.1, h2.2.2.1⟩,
         ⟨h3.1, h3.2.1⟩⟩

/-- C2: the pagination normalizer applies the defaults limit=10 and
page=1 when the raw query parameter is absent or empty, and
bounds-checks the raw strings lexicographically against "1" and "100";
the numerically in-range input limit="20" is lexicographically greater
than "100" and is therefore replaced with the default limit 10. -/
theorem c2_defaults_and_lexicographic_bounds :
    normLimitQ none = "10" ∧ normLimitQ (some "") = "10" ∧
    normPageQ none = "1" ∧ normPageQ (some "") = "1" ∧
    ((1 : Int) ≤ 20 ∧ (20 : Int) ≤ 100) ∧ goAtoi "20" = some 20 ∧
    goStrLt "100" "20" = true ∧
    normLimitQ (some "20") = "10" ∧
    (getPostsPagination (some "20") (some "1")).1 = 10 ∧
    (getTxPagination (some "20") (some "1")).1 = 10 := by
  decide

/-- C3 counterexample: the posts pagination does NOT re-clamp page
after parsing, so the raw pair limit="10", page="1.5" (page survives
the lexicographic filter but fails Atoi, yielding page 0) produces the
negative offset -10, refuting the claim that the normalizer outputs
non-negative offsets with page re-clamped for every raw pair. -/
theorem c3_counterexample :
    (getPostsPagination (some "10") (some "1.5")).2 = -10 ∧
    ¬ (0 ≤ (getPostsPagination (some "10") (some "1.5")).2) := by
  decide

/-- C3 (amended): the TRANSACTIONS pagination normalizer outputs
non-negative (limit, offset) for every raw pair, with offset =
(page-1)*limit after page is re-clamped to at least 1; and for limit,
page in [1,100] the list query returns at most limit rows.  (The posts
normalizer omits the re-clamp; see the counterexample.) -/
theorem c3_tx_pagination_nonneg_and_query_bound :
    (∀ limitRaw pageRaw : Option String,
       0 ≤ (getTxPagination limitRaw pageRaw).1 ∧
       0 ≤ (getTxPagination limitRaw pageRaw).2 ∧
       (getTxPagination limitRaw pageRaw).2 =
         (max ((goAtoi (normPageQ pageRaw)).getD 0) 1 - 1) *
           (getTxPagination limitRaw pageRaw).1) ∧
    (∀ (rows : List Transaction) (lim pg : Int),
       1 ≤ lim → lim ≤ 100 → 1 ≤ pg → pg ≤ 100 →
       ((dbFind rows lim ((pg - 1) * lim)).length : Int) ≤ lim) := by
  constructor
  · intro limitRaw pageRaw
    have hl := normLimit_atoi_nonneg limitRaw
    simp only [getTxPagination]
    set page0 := (goAtoi (normPageQ pageRaw)).getD 0 with hp0
    refine ⟨hl, ?_, ?_⟩
    · have : (0 : Int) ≤ (if page0 < 1 then 1 else page0) - 1 := by
        split <;> omega
      exact mul_nonneg this hl
    · have : (if page0 < 1 then 1 else page0) = max page0 1 := by
        split <;> omega
      rw [this]
  · intro rows lim pg h1 h2 h3 h4
    exact dbFind_length_le rows lim ((pg - 1) * lim) h1

/-- Witness for C3 (amended) at limit="10", page="1.5" and at a
25-row store queried with limit 10, page 2. -/
theorem c3_witness :
    (1 : Int) ≤ 10 ∧ (10 : Int) ≤ 100 ∧ (1 : Int) ≤ 2 ∧ (2 : Int) ≤ 100 ∧
    0 ≤ (getTxPagination (some "10") (some "1.5")).2 ∧
    ((dbFind (List.replicate 25 zeroTransaction) 10 ((2 - 1) * 10)).length : Int) ≤ 10 :=
  ⟨by decide, by decide, by decide, by decide,
   (c3_tx_pagination_nonneg_and_query_bound.1 (some "10") (some "1.5")).2.1,
   c3_tx_pagination_nonneg_and_query_bound.2 (List.replicate 25 zeroTransaction) 10 2
     (by decide) (by decide) (by decide) (by decide)⟩

/-- C4: a zero identifier after the store write is treated as write
failure: with the externally assigned identifier 0 the create handler
responds 422 with type `create-post/save` (resp. `create-tx/save`),
publishes no event and returns no payload; consequently every resource
in a 200 create response has a non-zero identifier. -/
theorem c4_zero_identifier_is_failure (body : Option Json) (assignedId : Nat)
    (pub : String → String → Bool) :
    (∀ d : CreatePostDto, CreatePostDtoValidator body = Except.ok d → assignedId = 0 →
       (CreatePostHandler body assignedId pub).status = 422 ∧
       (CreatePostHandler body assignedId pub).typeTag = some "create-post/save" ∧
       (CreatePostHandler body assignedId pub).events = [] ∧
       (CreatePostHandler body assignedId pub).post = none) ∧
    (∀ p : Post, (CreatePostHandler body assignedId pub).status = 200 →
       (CreatePostHandler body assignedId pub).post = some p → p.ID ≠ 0) ∧
    (∀ d : CreateTransactionDto, CreateTransactionDtoValidator body = Except.ok d →
       assignedId = 0 →
       (CreateTransactionHandler body assignedId pub).status = 422 ∧
       (CreateTransactionHandler body assignedId pub).typeTag = some "create-tx/save" ∧
       (CreateTransactionHandler body assignedId pub).events = [] ∧
       (CreateTransactionHandler body assignedId pub).tx = none) ∧
    (∀ t : Transaction, (CreateTransactionHandler body assignedId pub).status = 200 →
       (CreateTransactionHandler body assignedId pub).tx = some t → t.ID ≠ 0) := by
  refine ⟨?_, ?_, ?_, ?_⟩
  · intro d hV haid
    subst haid
    simp [CreatePostHandler, hV]
  · intro p h200 hpost
    cases hV : CreatePostDtoValidator body with
    | error tag => simp [CreatePostHandler, hV] at h200
    | ok d =>
      by_cases haid : assignedId = 0
      · subst haid; simp [CreatePostHandler, hV] at h200
      · simp [CreatePostHandler, hV, haid] at hpost
        subst hpost
        exact haid
  · intro d hV haid
    subst haid
    simp [CreateTransactionHandler, hV]
  · intro t h200 htx
    cases hV : CreateTransactionDtoValidator body with
    | error tag => simp [CreateTransactionHandler, hV] at h200
    | ok d =>
      by_cases haid : assignedId = 0
      · subst haid; simp [CreateTransactionHandler, hV] at h200
      · simp [CreateTransactionHandler, hV, haid] at htx
        subst htx
        simpa using haid

/-- Witness for C4 at a valid body with assigned identifier 0. -/
theorem c4_witness :
    CreatePostDtoValidator c4DemoBody = Except.ok { Body := "hello" } ∧
    (CreatePostHandler c4DemoBody 0 (fun _ _ => true)).status = 422 ∧
    (CreatePostHandler c4DemoBody 0 (fun _ _ => true)).typeTag = some "create-post/save" ∧
    (CreatePostHandler c4DemoBody 0 (fun _ _ => true)).events = [] := by
  have h := (c4_zero_identifier_is_failure c4DemoBody 0 (fun _ _ => true)).1
    { Body := "hello" } rfl rfl
  exact ⟨rfl, h.1, h.2.1, h.2.2.1⟩

/-- C5: after a successful lookup in GetTxByIdHandler, the two
enrichment request/reply calls (topic user.info with the owner id,
topic pet.info with the pet id, each with a 1-second timeout) fail
independently: each response field (`user`, `pet`) is exactly the
decoded value of its own reply — `none` on a call error or a reply
that fails JSON decoding — and the response status is 200 whatever the
two replies are. -/
theorem c5_enrichment_failures_independent (idParam : String)
    (rows : List Transaction) (reqReply : String → String → NatsReply)
    (pub : String → String → Bool) (clientIP : String) (txId : Int)
    (hparse : goAtoi idParam = some txId)
    (hfound : (dbFirst rows txId).ID ≠ 0) :
    (GetTxByIdHandler idParam rows reqReply pub clientIP).status = 200 ∧
    (GetTxByIdHandler idParam rows reqReply pub clientIP).userInfo =
      decodeReply (reqReply "user.info" (toString (dbFirst rows txId).OwnerID)) ∧
    (GetTxByIdHandler idParam rows reqReply pub clientIP).petInfo =
      decodeReply (reqReply "pet.info" (toString (dbFirst rows txId).PetID)) ∧
    (GetTxByIdHandler idParam rows reqReply pub clientIP).busRequests =
      [("user.info", toString (dbFirst rows txId).OwnerID, 1),
       ("pet.info", toString (dbFirst rows txId).PetID, 1)] ∧
    decodeReply NatsReply.err = none ∧
    decodeReply (NatsReply.ok none) = none := by
  simp only [GetTxByIdHandler, hparse]
  rw [if_neg hfound]
  exact ⟨rfl, rfl, rfl, rfl, rfl, rfl⟩

/-- Witness for C5: the owner call times out while the pet call
replies with a JSON object; the response has user nil, pet populated,
status 200. -/
theorem c5_witness :
    goAtoi "1" = some 1 ∧
    (dbFirst [c5DemoTx] 1).ID ≠ 0 ∧
    ((GetTxByIdHandler "1" [c5DemoTx] c5DemoBus (fun _ _ => true) "ip").status = 200 ∧
     (GetTxByIdHandler "1" [c5DemoTx] c5DemoBus (fun _ _ => true) "ip").userInfo =
       decodeReply (c5DemoBus "user.info" (toString (dbFirst [c5DemoTx] 1).OwnerID)) ∧
     (GetTxByIdHandler "1" [c5DemoTx] c5DemoBus (fun _ _ => true) "ip").petInfo =
       decodeReply (c5DemoBus "pet.info" (toString (dbFirst [c5DemoTx] 1).PetID))) ∧
    (GetTxByIdHandler "1" [c5DemoTx] c5DemoBus (fun _ _ => true) "ip").userInfo = none ∧
    (GetTxByIdHandler "1" [c5DemoTx] c5DemoBus (fun _ _ => true) "ip").petInfo =
      some [("name", Json.str "rex")] := by
  have h := c5_enrichment_failures_independent "1" [c5DemoTx] c5DemoBus (fun _ _ => true) "ip" 1
    rfl (by decide)
  exact ⟨rfl, by decide, ⟨h.1, h.2.1, h.2.2.1⟩, rfl, rfl⟩

/-- C6: a fetch-by-id request whose parsed identifier matches no
stored row (the lookup leaves the zero-valued transaction) is answered
404 with type `get-tx/not-found`, never 200. -/
theorem c6_missing_id_is_404 (idParam : String) (rows : List Transaction)
    (reqReply : String → String → NatsReply) (pub : String → String → Bool)
    (clientIP : String) (txId : Int)
    (hparse : goAtoi idParam = some txId)
    (hmiss : ∀ r ∈ rows, ((r.ID : Int)) ≠ txId) :
    (GetTxByIdHandler idParam rows reqReply pub clientIP).status = 404 ∧
    (GetTxByIdHandler idParam rows reqReply pub clientIP).typeTag = some "get-tx/not-found" ∧
    (GetTxByIdHandler idParam rows reqReply pub clientIP).tx = none ∧
    (GetTxByIdHandler idParam rows reqReply pub clientIP).status ≠ 200 := by
  have hfind : rows.find? (fun r => ((r.ID : Int)) == txId) = none := by
    rw [List.find?_eq_none]
    intro r hr
    simpa using hmiss r hr
  have hzero : (dbFirst rows txId).ID = 0 := by
    simp [dbFirst, hfind, zeroTransaction]
  simp only [GetTxByIdHandler, hparse]
  rw [if_pos hzero]
  exact ⟨rfl, rfl, rfl, by decide⟩

/-- Witness for C6 on an empty store with id 5. -/
theorem c6_witness :
    goAtoi "5" = some 5 ∧
    (GetTxByIdHandler "5" [] (fun _ _ => NatsReply.err) (fun _ _ => true) "ip").status = 404 ∧
    (GetTxByIdHandler "5" [] (fun _ _ => NatsReply.err) (fun _ _ => true) "ip").typeTag =
      some "get-tx/not-found" ∧
    (GetTxByIdHandler "5" [] (fun _ _ => NatsReply.err) (fun _ _ => true) "ip").status ≠ 200 := by
  have h := c6_missing_id_is_404 "5" [] (fun _ _ => NatsReply.err) (fun _ _ => true) "ip" 5
    (by decide) (by intro r hr; cases hr)
  exact ⟨by decide, h.1, h.2.1, h.2.2.2⟩

/-- C7: on a store whose rows all have identifiers below the next
monotone identifier, Create of a valid payload followed by FindByID on
the identifier it returns (no intervening writes) yields exactly the
resource of the create response, whose identifier is non-zero and
whose payload fields equal the DTO fields. -/
theorem c7_create_then_find (s : TxStore) (d : CreateTransactionDto)
    (hvalid : validateCreateTransactionDto d = true)
    (hpos : 1 ≤ s.nextId)
    (hinv : ∀ r ∈ s.rows, r.ID < s.nextId) :
    dbFirst (txStoreCreate s (txFromDto d)).1.rows
        (((txStoreCreate s (txFromDto d)).2.ID : Int)) =
      (txStoreCreate s (txFromDto d)).2 ∧
    (txStoreCreate s (txFromDto d)).2.ID ≠ 0 ∧
    (txStoreCreate s (txFromDto d)).2.OwnerID = d.OwnerID ∧
    (txStoreCreate s (txFromDto d)).2.PetID = d.PetID ∧
    (txStoreCreate s (txFromDto d)).2.Status = d.Status ∧
    (txStoreCreate s (txFromDto d)).2.Message = d.Message ∧
    (txStoreCreate s (txFromDto d)).2.Latitude = d.Latitude ∧
    (txStoreCreate s (txFromDto d)).2.Longitude = d.Longitude ∧
    (txStoreCreate s (txFromDto d)).2.Upload = d.Upload := by
  refine ⟨?_, by simp [txStoreCreate]; omega, rfl, rfl, rfl, rfl, rfl, rfl, rfl⟩
  have hnone : s.rows.find? (fun r => ((r.ID : Int)) == ((s.nextId : Nat) : Int)) = none := by
    rw [List.find?_eq_none]
    intro r hr
    have := hinv r hr
    simp only [beq_iff_eq]
    intro heq
    omega
  simp only [txStoreCreate, dbFirst]
  rw [find?_append_none _ _ _ hnone]
  simp

/-- Witness for C7 on the empty store and a concrete valid payload. -/
theorem c7_witness :
    validateCreateTransactionDto c7DemoDto = true ∧
    1 ≤ c7DemoStore.nextId ∧
    dbFirst (txStoreCreate c7DemoStore (txFromDto c7DemoDto)).1.rows
        (((txStoreCreate c7DemoStore (txFromDto c7DemoDto)).2.ID : Int)) =
      (txStoreCreate c7DemoStore (txFromDto c7DemoDto)).2 ∧
    (txStoreCreate c7DemoStore (txFromDto c7DemoDto)).2.ID ≠ 0 := by
  have h := c7_create_then_find c7DemoStore c7DemoDto (by decide) (by decide)
    (by intro r hr; cases hr)
  exact ⟨by decide, by decide, h.1, h.2.1⟩

/-- C8: the outcome of every event publish (post.created, post.select,
tx.created, tx.select) is ignored: the status and response payload of
the create and list handlers are identical under any two publish
outcome oracles (the discarded return values live only in
`pubResults`). -/
theorem c8_publish_outcome_ignored (body : Option Json) (assignedId : Nat)
    (limitRaw pageRaw : Option String) (postRows : List Post)
    (txRows : List Transaction) (clientIP : String)
    (pubA pubB : String → String → Bool) :
    ((CreatePostHandler body assignedId pubA).status =
       (CreatePostHandler body assignedId pubB).status ∧
     (CreatePostHandler body assignedId pubA).typeTag =
       (CreatePostHandler body assignedId pubB).typeTag ∧
     (CreatePostHandler body assignedId pubA).post =
       (CreatePostHandler body assignedId pubB).post ∧
     (CreatePostHandler body assignedId pubA).events =
       (CreatePostHandler body assignedId pubB).events) ∧
    ((GetPostsHandler limitRaw pageRaw postRows pubA clientIP).status =
       (GetPostsHandler limitRaw pageRaw postRows pubB clientIP).status ∧
     (GetPostsHandler limitRaw pageRaw postRows pubA clientIP).posts =
       (GetPostsHandler limitRaw pageRaw postRows pubB clientIP).posts ∧
     (GetPostsHandler limitRaw pageRaw postRows pubA clientIP).events =
       (GetPostsHandler limitRaw pageRaw postRows pubB clientIP).events) ∧
    ((CreateTransactionHandler body assignedId pubA).status =
       (CreateTransactionHandler body assignedId pubB).status ∧
     (CreateTransactionHandler body assignedId pubA).typeTag =
       (CreateTransactionHandler body assignedId pubB).typeTag ∧
     (CreateTransactionHandler body assignedId pubA).tx =
       (CreateTransactionHandler body assignedId pubB).tx ∧
     (CreateTransactionHandler body assignedId pubA).events =
       (CreateTransactionHandler body assignedId pubB).events) ∧
    ((GetTransactionsHandler limitRaw pageRaw txRows pubA clientIP).status =
       (GetTransactionsHandler limitRaw pageRaw txRows pubB clientIP).status ∧
     (GetTransactionsHandler limitRaw pageRaw txRows pubA clientIP).txs =
       (GetTransactionsHandler limitRaw pageRaw txRows pubB clientIP).txs ∧
     (GetTransactionsHandler limitRaw pageRaw txRows pubA clientIP).events =
       (GetTransactionsHandler limitRaw pageRaw txRows pubB clientIP).events) := by
  refine ⟨?_, ⟨rfl, rfl, rfl⟩, ?_, ⟨rfl, rfl, rfl⟩⟩
  · cases hV : CreatePostDtoValidator body with
    | error tag => simp [CreatePostHandler, hV]
    | ok d =>
      by_cases haid : assignedId = 0
      · subst haid; simp [CreatePostHandler, hV]
      · simp [CreatePostHandler, hV, haid]
  · cases hV : CreateTransactionDtoValidator body with
    | error tag => simp [CreateTransactionHandler, hV]
    | ok d =>
      by_cases haid : assignedId = 0
      · subst haid; simp [CreateTransactionHandler, hV]
      · simp [CreateTransactionHandler, hV, haid]

/-- C9: a raw page string that passes the lexicographic filter but is
not a valid decimal integer (for example "1.5") has its Atoi error
discarded and becomes 0; GetPostsHandler then computes the negative
offset -limit (page is not re-clamped there) while
GetTransactionsHandler re-clamps page to 1 and computes offset 0. -/
theorem c9_atoi_error_divergence :
    (normPageQ (some "1.5") = "1.5" ∧ goAtoi "1.5" = none) ∧
    ∀ (s : String) (limitRaw : Option String),
      normPageQ (some s) = s → goAtoi s = none →
      (getPostsPagination limitRaw (some s)).2 =
        -((getPostsPagination limitRaw (some s)).1) ∧
      (getTxPagination limitRaw (some s)).2 = 0 := by
  refine ⟨⟨by decide, by decide⟩, ?_⟩
  intro s limitRaw hkeep hatoi
  constructor
  · simp only [getPostsPagination, hkeep, hatoi, Option.getD_none]
    ring
  · simp only [getTxPagination, hkeep, hatoi, Option.getD_none]
    norm_num

/-- Witness for C9 at page="1.5", limit="10". -/
theorem c9_witness :
    normPageQ (some "1.5") = "1.5" ∧ goAtoi "1.5" = none ∧
    (getPostsPagination (some "10") (some "1.5")).2 =
      -((getPostsPagination (some "10") (some "1.5")).1) ∧
    (getTxPagination (some "10") (some "1.5")).2 = 0 :=
  ⟨by decide, by decide,
   c9_atoi_error_divergence.2 "1.5" (some "10") (by decide) (by decide)⟩

/-- C10: a `:id` path parameter that Atoi cannot parse makes
GetTxByIdHandler respond 400 with type `get-tx/validation` and return
immediately: no store query, no publish, no enrichment request. -/
theorem c10_malformed_id_rejected_before_store (idParam : String)
    (rows : List Transaction) (reqReply : String → String → NatsReply)
    (pub : String → String → Bool) (clientIP : String)
    (h : goAtoi idParam = none) :
    (GetTxByIdHandler idParam rows reqReply pub clientIP).status = 400 ∧
    (GetTxByIdHandler idParam rows reqReply pub clientIP).typeTag = some "get-tx/validation" ∧
    (GetTxByIdHandler idParam rows reqReply pub clientIP).dbQueried = false ∧
    (GetTxByIdHandler idParam rows reqReply pub clientIP).events = [] ∧
    (GetTxByIdHandler idParam rows reqReply pub clientIP).busRequests = [] := by
  simp [GetTxByIdHandler, h]

/-- Witness for C10 at the unparseable id "abc". -/
theorem c10_witness :
    goAtoi "abc" = none ∧
    (GetTxByIdHandler "abc" [] (fun _ _ => NatsReply.err) (fun _ _ => true) "ip").status = 400 ∧
    (GetTxByIdHandler "abc" [] (fun _ _ => NatsReply.err) (fun _ _ => true) "ip").typeTag =
      some "get-tx/validation" ∧
    (GetTxByIdHandler "abc" [] (fun _ _ => NatsReply.err) (fun _ _ => true) "ip").dbQueried =
      false := by
  have h := c10_malformed_id_rejected_before_store "abc" []
    (fun _ _ => NatsReply.err) (fun _ _ => true) "ip" rfl
  exact ⟨rfl, h.1, h.2.1, h.2.2.1⟩
